import Mathlib

/-!
Verification of the moreau listener bridge (`moreau-listener.py`): a shallow
embedding of the bridge runtime — payload parsing, broker publishing,
the poll/drain loop, per-bridge startup and the supervisor — together with
theorems settling the behavioural claims about it.

Side effects (log calls, broker operations, `sys.exit`) are modelled as an
explicit trace of events; external failures (broker unreachable, a publish
step raising) are modelled by an environment record consulted where the
Python code would raise.
-/

namespace Moreau

/-- Python `logging` severity levels used by the listener. -/
inductive Level where
  | debug
  | info
  | warning
  | critical
deriving DecidableEq, Repr

/-- One observable effect of the bridge code: a log record, a broker
operation, or process exit (`sys.exit`). Broker connections carry a
numeric handle so reuse and closing can be tracked. -/
inductive Event where
  | log (lv : Level) (msg : String)
  | brokerConnect (id : Nat)
  | brokerClose (id : Nat)
  | openChannel (id : Nat)
  | exchangeDeclare (exchange ty : String)
  | queueDeclare (q : String)
  | basicPublish (exchange routingKey body : String)
  | exitProcess (code : Nat)
deriving DecidableEq, Repr

/-- Where the publish path of `republish_message` (its `try:` block) can
raise: `conn.channel()`, `exchange_declare`, `queue_declare`,
`basic_publish`. -/
inductive PubStep where
  | openChannel
  | exchangeDeclare
  | queueDeclare
  | basicPublish
deriving DecidableEq, Repr

/-- External environment of one bridge: whether the broker and database
accept connections, whether `LISTEN` succeeds, and which publish-path
steps raise when executed. -/
structure Env where
  rmqConnectOk : Bool
  pgConnectOk : Bool
  listenOk : Bool
  stepFails : PubStep → Bool

/-- The `[rabbitmq]` section of a validated bridge config
(`queue` is the optional key). -/
structure RabbitMQConfig where
  host : String
  port : String
  vhost : String
  exchange : String
  exchange_type : String
  username : String
  password : String
  queue : Option String
deriving DecidableEq, Repr

/-- The `[postgres]` section of a validated bridge config. -/
structure PostgresConfig where
  host : String
  port : String
  database : String
  username : String
  password : String
  channel : String
deriving DecidableEq, Repr

/-- One bridge's validated configuration (`[bridge] name` plus the two
sections). -/
structure BridgeConfig where
  name : String
  rabbitmq : RabbitMQConfig
  postgres : PostgresConfig
deriving DecidableEq, Repr

/-- First-colon split on a character list: models Python
`pg_payload.split(':', 1)` followed by unpacking into two variables
(`none` models the `ValueError` → `(None, None)` path when no `:`
occurs). -/
def splitFirstAux : List Char → Option (List Char × List Char)
  | [] => none
  | c :: rest =>
      if c = ':' then some ([], rest)
      else
        match splitFirstAux rest with
        | none => none
        | some (a, b) => some (c :: a, b)

/-- `splitFirst s` is `routing_key, message = s.split(':', 1)` of
`republish_message`, with `none` for the caught `ValueError`. -/
def splitFirst (s : String) : Option (String × String) :=
  match splitFirstAux s.data with
  | none => none
  | some (a, b) => some (⟨a⟩, ⟨b⟩)

/-- The combined effect of lines 197–204 of `republish_message`: the
split plus the `if not routing_key or not message` falsy check. `none`
means the payload is discarded as improperly formatted. -/
def parseOk (s : String) : Option (String × String) :=
  match splitFirst s with
  | none => none
  | some (rk, m) => if rk = "" ∨ m = "" then none else some (rk, m)

/-- Substring test on character lists (used only to state properties of
log messages). -/
def strContainsAux (haystack needle : List Char) : Bool :=
  (List.range (haystack.length + 1)).any fun i =>
    needle.isPrefixOf (haystack.drop i)

/-- `strContains h n` holds when `n` occurs contiguously in `h`. -/
def strContains (haystack needle : String) : Bool :=
  strContainsAux haystack.data needle.data

/-- Events of the malformed-payload branch of `republish_message`
(lines 201–204): warning plus info log, then an early `return`. -/
def malformedEvents (pg_payload : String) : List Event :=
  [.log .warning "Improperly formatted message received; discarding.",
   .log .info ("Message content: " ++ pg_payload)]

/-- Logs emitted after a successful `basic_publish` (lines 217–221). -/
def successLogs (cfg : BridgeConfig) (rk msg : String) : List Event :=
  [.log .info ("Message republished via \"" ++ cfg.name ++ "\" bridge."),
   .log .debug ("Routing key: " ++ rk),
   .log .debug ("Message: " ++ msg)]

/-- Logs of the `except:` branch of the publish path (lines 222–226). -/
def failureLogs (cfg : BridgeConfig) (pg_payload : String) : List Event :=
  [.log .warning ("Unable to republish message via \"" ++ cfg.name
      ++ "\" bridge; discarding."),
   .log .info ("Message content: " ++ pg_payload)]

/-- The `try:` block of `republish_message` (lines 205–216): open a
channel on connection `c`, declare the exchange when configured
non-empty, declare the queue when the key is present, then publish.
Returns the broker operations executed and whether the block completed
without raising (an operation's event is recorded even when that
operation raises, and nothing after it runs). -/
def publishPath (c : Nat) (cfg : BridgeConfig) (rk msg : String) (env : Env) :
    List Event × Bool :=
  let e1 : List Event := [.openChannel c]
  if env.stepFails .openChannel then (e1, false) else
  let e2 : List Event :=
    if cfg.rabbitmq.exchange ≠ "" then
      [.exchangeDeclare cfg.rabbitmq.exchange cfg.rabbitmq.exchange_type]
    else []
  if cfg.rabbitmq.exchange ≠ "" ∧ env.stepFails .exchangeDeclare then
    (e1 ++ e2, false) else
  let e3 : List Event :=
    match cfg.rabbitmq.queue with
    | some q => [.queueDeclare q]
    | none => []
  if cfg.rabbitmq.queue.isSome ∧ env.stepFails .queueDeclare then
    (e1 ++ e2 ++ e3, false) else
  let e4 : List Event := [.basicPublish cfg.rabbitmq.exchange rk msg]
  if env.stepFails .basicPublish then (e1 ++ e2 ++ e3 ++ e4, false)
  else (e1 ++ e2 ++ e3 ++ e4, true)

/-- Body of `republish_message` from the parse onwards (lines 197–228),
on an established connection `c`. `terminate` is
`terminate_after_message`: when true and the payload parsed, the
connection is closed after the publish attempt; the malformed branch
returns early and never reaches the close. -/
def republishBody (c : Nat) (terminate : Bool) (cfg : BridgeConfig)
    (pg_payload : String) (env : Env) : List Event :=
  match splitFirst pg_payload with
  | none => malformedEvents pg_payload
  | some (rk, msg) =>
    if rk = "" ∨ msg = "" then malformedEvents pg_payload
    else
      let r := publishPath c cfg rk msg env
      r.1 ++ (if r.2 then successLogs cfg rk msg else failureLogs cfg pg_payload)
        ++ (if terminate then [.brokerClose c] else [])

/-- Events of `connect_rabbitmq` when the broker accepts (debug log,
connection, info log), with `freshId` the handle of the new
connection. -/
def connectRmqOkEvents (freshId : Nat) : List Event :=
  [.log .debug "Connecting to the RabbitMQ broker.",
   .brokerConnect freshId,
   .log .info "Connection to RabbitMQ established."]

/-- Events of `connect_rabbitmq` when the broker is unreachable:
critical logs then `sys.exit(1)`. -/
def connectRmqFailEvents : List Event :=
  [.log .debug "Connecting to the RabbitMQ broker.",
   .log .critical "Could not connect to RabbitMQ broker.",
   .log .critical "Unable to continue; exiting.",
   .exitProcess 1]

/-- `republish_message(conn, config, pg_payload)` (lines 187–228).
`conn = none` is ephemeral mode: a fresh connection (handle `freshId`)
is opened first — or, if the broker refuses, the process exits before
anything else happens. `conn = some c` is persistent mode: the handle is
used as-is and `terminate_after_message` is false. -/
def republish_message (conn : Option Nat) (cfg : BridgeConfig)
    (pg_payload : String) (env : Env) (freshId : Nat) : List Event :=
  match conn with
  | none =>
      if env.rmqConnectOk then
        connectRmqOkEvents freshId ++ republishBody freshId true cfg pg_payload env
      else
        connectRmqFailEvents
  | some c => republishBody c false cfg pg_payload env

/-- Whether a trace reached `sys.exit` (no later code runs). -/
def callExits (tr : List Event) : Bool :=
  tr.any fun e => match e with | .exitProcess _ => true | _ => false

/-- Sequential processing of several payloads through
`republish_message` with the same connection argument, threading fresh
ephemeral handles; stops if a call exits the process. This is the order
in which the drain loop hands payloads to the callback. -/
def runSeq (conn : Option Nat) (cfg : BridgeConfig) (env : Env)
    (freshBase : Nat) : List String → List Event
  | [] => []
  | p :: rest =>
      let tr := republish_message conn cfg p env freshBase
      if callExits tr then tr
      else tr ++ runSeq conn cfg env (freshBase + 1) rest

/-- The drain loop of `poll` (lines 183–185): `while conn.notifies:`
pop the most recently buffered notification and invoke the callback on
it. Returns the payloads in callback-invocation order and the final
buffer. -/
def drainLoopState (buf : List String) : List String × List String :=
  if h : buf = [] then ([], buf)
  else
    let r := drainLoopState buf.dropLast
    (buf.getLast h :: r.1, r.2)
termination_by buf.length
decreasing_by
  simp only [List.length_dropLast]
  have : buf.length ≠ 0 := fun hz => h (List.length_eq_zero.mp hz)
  omega

/-- One blocking step of the `while 1:` loop of `poll` (lines 178–185):
either `select` times out (debug log; buffer untouched) or data is
ready, `conn_postgres.poll()` appends the newly delivered notifications
to the buffer, and the drain loop republishes every buffered one. -/
inductive PollInput where
  | timeout
  | activity (delivered : List String)
deriving DecidableEq, Repr

/-- One iteration of `poll`'s loop: new notify buffer plus the events
emitted. -/
def pollStep (notifies : List String) (conn_rabbitmq : Option Nat)
    (cfg : BridgeConfig) (env : Env) (freshBase : Nat) (input : PollInput) :
    List String × List Event :=
  match input with
  | .timeout =>
      (notifies, [.log .debug "Timed out while polling. (this is normal)"])
  | .activity delivered =>
      let buf := notifies ++ delivered
      let d := drainLoopState buf
      (d.2, runSeq conn_rabbitmq cfg env freshBase d.1)

/-- Events of `connect_postgres` on success (lines 134–153). -/
def connectPgOkEvents : List Event :=
  [.log .debug "Connecting to the PostgreSQL server.",
   .log .info "Connection to PostgreSQL established."]

/-- Events of `connect_postgres` when the server is unreachable:
critical logs then `sys.exit(1)`. -/
def connectPgFailEvents : List Event :=
  [.log .debug "Connecting to the PostgreSQL server.",
   .log .critical "Could not connect to PostgreSQL server.",
   .log .critical "Unable to continue; exiting.",
   .exitProcess 1]

/-- Events of `register_listen` (lines 156–170) up to and including the
`LISTEN` execution attempt. On failure the `except:` block runs `raise`
as its first statement, so the critical logs and `sys.exit(1)` that
follow it never execute: nothing is appended. -/
def listenAttemptEvents (cfg : BridgeConfig) : List Event :=
  [.log .debug ("Preparing to start listening on channel \""
      ++ cfg.postgres.channel ++ "\".")]

/-- Events of `register_listen` when `LISTEN` succeeds. -/
def listenOkEvents (cfg : BridgeConfig) : List Event :=
  listenAttemptEvents cfg
    ++ [.log .info ("Listening on channel \"" ++ cfg.postgres.channel ++ "\".")]

/-- How one bridge's execution unit (its `run` invocation inside its own
`Process`) ends up: `exited` models a `sys.exit(1)` during startup,
`raised` an exception that propagates uncaught out of `run`, and
`polling` reaching the infinite `poll` loop with the broker-connection
argument it was given. -/
inductive BridgeOutcome where
  | exited (events : List Event)
  | raised (events : List Event)
  | polling (events : List Event) (conn_rabbitmq : Option Nat)
deriving DecidableEq, Repr

/-- `run(args, config)` (lines 231–242): connect the broker when
`args.persistent`, connect PostgreSQL, `LISTEN`, then poll forever. The
persistent broker connection gets handle `0`. -/
def run (persistent : Bool) (cfg : BridgeConfig) (env : Env) : BridgeOutcome :=
  let e0 : List Event :=
    [.log .info ("Initiating bridge \"" ++ cfg.name ++ "\".")]
  if persistent ∧ ¬env.rmqConnectOk then
    .exited (e0 ++ connectRmqFailEvents)
  else
    let conn_rabbitmq : Option Nat := if persistent then some 0 else none
    let e1 := e0 ++ (if persistent then connectRmqOkEvents 0 else [])
    if ¬env.pgConnectOk then
      .exited (e1 ++ connectPgFailEvents)
    else
      let e2 := e1 ++ connectPgOkEvents
      if ¬env.listenOk then
        .raised (e2 ++ listenAttemptEvents cfg)
      else
        .polling (e2 ++ listenOkEvents cfg
          ++ [.log .info "Beginning polling for messages."]) conn_rabbitmq

/-- The `__main__` supervisor (lines 255–265): one `Process` per
configured bridge, each running `run` on its own configuration with its
own external environment; processes share no state, so each outcome is a
function of that bridge's pair alone. -/
def supervise (persistent : Bool) (bridges : List (BridgeConfig × Env)) :
    List BridgeOutcome :=
  bridges.map fun b => run persistent b.1 b.2

/-- A raw config file as read by `configparser`: a list of
(section, option, value) entries. -/
abbrev ConfigFile := List (String × String × String)

/-- `config.has_option(section, option)`. -/
def has_option (cf : ConfigFile) (sec opt : String) : Bool :=
  cf.any fun e => e.1 = sec ∧ e.2.1 = opt

/-- `config.get(section, option)` as far as the model needs it. -/
def configGet (cf : ConfigFile) (sec opt : String) : Option String :=
  (cf.find? fun e => e.1 = sec ∧ e.2.1 = opt).map fun e => e.2.2

/-- The `checks` tuple of `parse_config` (lines 84–98): every required
(section, option) pair. -/
def requiredChecks : List (String × String) :=
  [("bridge", "name"),
   ("rabbitmq", "host"),
   ("rabbitmq", "port"),
   ("rabbitmq", "vhost"),
   ("rabbitmq", "exchange"),
   ("rabbitmq", "exchange_type"),
   ("rabbitmq", "username"),
   ("rabbitmq", "password"),
   ("postgres", "host"),
   ("postgres", "port"),
   ("postgres", "database"),
   ("postgres", "username"),
   ("postgres", "password"),
   ("postgres", "channel")]

/-- `parse_config` (lines 77–109): for each check pair in order, if
`has_option` is false, log the missing pair critically and
`sys.exit(1)` — modelled as `.error pair`. Otherwise return the parsed
dictionary (the entries themselves). Values are never inspected. -/
def parse_config (cf : ConfigFile) : Except (String × String) ConfigFile :=
  match requiredChecks.find? (fun p => !has_option cf p.1 p.2) with
  | some p => .error p
  | none => .ok cf

/-- The `__main__` config-loading loop (lines 249–253): parse every
config file before any bridge process starts; the first missing option
exits the whole process. -/
def loadAll : List ConfigFile → Except (String × String) (List ConfigFile)
  | [] => .ok []
  | cf :: rest =>
      match parse_config cf with
      | .error p => .error p
      | .ok d =>
          match loadAll rest with
          | .error p => .error p
          | .ok ds => .ok (d :: ds)

/-- Number of broker connections opened in a trace. -/
def countConnect (tr : List Event) : Nat :=
  tr.countP fun e => match e with | .brokerConnect _ => true | _ => false

/-- Number of broker connections closed in a trace. -/
def countClose (tr : List Event) : Nat :=
  tr.countP fun e => match e with | .brokerClose _ => true | _ => false

/-- Whether an event is part of the broker publish path: a channel
open, an exchange or queue declaration, or a publish. -/
def isPublishOp : Event → Bool
  | .openChannel _ => true
  | .exchangeDeclare _ _ => true
  | .queueDeclare _ => true
  | .basicPublish _ _ _ => true
  | _ => false

/-- Number of `basic_publish` calls in a trace. -/
def countPublish (tr : List Event) : Nat :=
  tr.countP fun e => match e with | .basicPublish _ _ _ => true | _ => false

/-- Number of critical-level log records in a trace. -/
def countCritical (tr : List Event) : Nat :=
  tr.countP fun e => match e with | .log .critical _ => true | _ => false

/-- Whether a trace contains a warning-level log record. -/
def hasWarning (tr : List Event) : Bool :=
  tr.any fun e => match e with | .log .warning _ => true | _ => false

/-- Whether some warning-level log record in the trace contains `s`
verbatim. -/
def warningContaining (tr : List Event) (s : String) : Bool :=
  tr.any fun e => match e with
    | .log .warning m => strContains m s
    | _ => false

/-- Whether some info-level log record in the trace contains `s`
verbatim. -/
def infoContaining (tr : List Event) (s : String) : Bool :=
  tr.any fun e => match e with
    | .log .info m => strContains m s
    | _ => false

/-- The events an execution unit emitted, whatever its outcome. -/
def outcomeEvents : BridgeOutcome → List Event
  | .exited evs => evs
  | .raised evs => evs
  | .polling evs _ => evs

/-- Whether the unit died from an uncaught exception. -/
def isRaised : BridgeOutcome → Bool
  | .raised _ => true
  | _ => false

/-- Whether the unit reached the `poll` loop. -/
def reachedPolling : BridgeOutcome → Bool
  | .polling _ _ => true
  | _ => false

/-- Whether the unit terminated via `sys.exit` after at least one
critical log. -/
def exitedCritically (o : BridgeOutcome) : Bool :=
  match o with
  | .exited evs => decide (0 < countCritical evs) && callExits evs
  | _ => false

/-- Whether every channel open in a trace happens on connection `c`. -/
def channelsOn (c : Nat) (tr : List Event) : Bool :=
  tr.all fun e => match e with | .openChannel i => i == c | _ => true

/-- Whether a trace is free of broker publish-path operations. -/
def noPublishOps (tr : List Event) : Bool :=
  tr.all fun e => !isPublishOp e

/-- `Except` success as a Bool. -/
def exceptOk : Except (String × String) ConfigFile → Bool
  | .ok _ => true
  | .error _ => false

/-- `Except` success for lists of parsed configs. -/
def exceptOkL : Except (String × String) (List ConfigFile) → Bool
  | .ok _ => true
  | .error _ => false

/-- The broker-connection argument `poll` receives from `run`, when the
bridge reaches polling at all. -/
def pollingConn : BridgeOutcome → Option (Option Nat)
  | .polling _ c => some c
  | _ => none

/-! ### Concrete fixtures for witnesses and counterexamples -/

/-- A concrete validated bridge configuration. -/
def cfgA : BridgeConfig :=
  { name := "b",
    rabbitmq := { host := "mq", port := "5672", vhost := "/", exchange := "ex1",
                  exchange_type := "direct", username := "u", password := "p",
                  queue := none },
    postgres := { host := "db", port := "5432", database := "d", username := "u",
                  password := "p", channel := "ch" } }

/-- A second concrete bridge configuration, differing from `cfgA`. -/
def cfgB : BridgeConfig :=
  { name := "b2",
    rabbitmq := { host := "mq2", port := "5672", vhost := "/", exchange := "ex2",
                  exchange_type := "fanout", username := "u2", password := "p2",
                  queue := some "q2" },
    postgres := { host := "db2", port := "5432", database := "d2",
                  username := "u2", password := "p2", channel := "ch2" } }

/-- A raw config file carrying every required option, but with an empty
value for `bridge.name`. -/
def cfgFileEmptyName : ConfigFile :=
  [("bridge", "name", ""),
   ("rabbitmq", "host", "mq"),
   ("rabbitmq", "port", "5672"),
   ("rabbitmq", "vhost", "/"),
   ("rabbitmq", "exchange", "ex1"),
   ("rabbitmq", "exchange_type", "direct"),
   ("rabbitmq", "username", "u"),
   ("rabbitmq", "password", "p"),
   ("postgres", "host", "db"),
   ("postgres", "port", "5432"),
   ("postgres", "database", "d"),
   ("postgres", "username", "u"),
   ("postgres", "password", "p"),
   ("postgres", "channel", "ch")]

/-- Environment where every external operation succeeds. -/
def envAllOk : Env :=
  { rmqConnectOk := true, pgConnectOk := true, listenOk := true,
    stepFails := fun _ => false }

/-- Environment where `basic_publish` raises but connections succeed. -/
def envPubFail : Env :=
  { envAllOk with stepFails := fun s => s == PubStep.basicPublish }

/-- Environment where the PostgreSQL server is unreachable. -/
def envPgDown : Env := { envAllOk with pgConnectOk := false }

/-- Environment where the `LISTEN` command raises. -/
def envListenFail : Env := { envAllOk with listenOk := false }

/-! ### Helper lemmas about the embedding -/

theorem colon_data : (":" : String).data = [':'] := rfl

theorem splitFirstAux_no_colon (k m : List Char) (h : ':' ∉ k) :
    splitFirstAux (k ++ ':' :: m) = some (k, m) := by
  induction k with
  | nil => simp [splitFirstAux]
  | cons c t ih =>
      have hc : ¬c = ':' := fun e => h (by simp [e])
      have ht : ':' ∉ t := fun q => h (List.mem_cons_of_mem _ q)
      simp [splitFirstAux, hc, ih ht]

theorem splitFirst_concat (k m : String) (h : ':' ∉ k.data) :
    splitFirst (k ++ ":" ++ m) = some (k, m) := by
  have hd : (k ++ ":" ++ m).data = k.data ++ ':' :: m.data := by
    simp [String.data_append, colon_data]
  simp [splitFirst, hd, splitFirstAux_no_colon _ _ h]

theorem parseOk_concat (k m : String) (hk : k ≠ "") (hm : m ≠ "")
    (h : ':' ∉ k.data) : parseOk (k ++ ":" ++ m) = some (k, m) := by
  simp [parseOk, splitFirst_concat _ _ h, hk, hm]

theorem republishBody_parsed (c : Nat) (t : Bool) (cfg : BridgeConfig)
    (p rk msg : String) (env : Env) (h : parseOk p = some (rk, msg)) :
    republishBody c t cfg p env =
      (publishPath c cfg rk msg env).1
        ++ (if (publishPath c cfg rk msg env).2 then successLogs cfg rk msg
            else failureLogs cfg p)
        ++ (if t then [Event.brokerClose c] else []) := by
  unfold parseOk at h
  cases hs : splitFirst p with
  | none => simp [hs] at h
  | some pr =>
      obtain ⟨rk', m'⟩ := pr
      rw [hs] at h
      by_cases he : rk' = "" ∨ m' = ""
      · simp [he] at h
      · simp only [he, if_neg, ite_false, Option.some.injEq, Prod.mk.injEq] at h
        obtain ⟨h1, h2⟩ := h
        subst h1; subst h2
        simp [republishBody, hs, he]

theorem republishBody_malformed (c : Nat) (t : Bool) (cfg : BridgeConfig)
    (p : String) (env : Env) (h : parseOk p = none) :
    republishBody c t cfg p env = malformedEvents p := by
  unfold parseOk at h
  cases hs : splitFirst p with
  | none => simp [republishBody, hs]
  | some pr =>
      obtain ⟨rk', m'⟩ := pr
      rw [hs] at h
      by_cases he : rk' = "" ∨ m' = ""
      · simp [republishBody, hs, he]
      · simp [he] at h

theorem publishPath_ops (c : Nat) (cfg : BridgeConfig) (rk msg : String)
    (env : Env) (e : Event) (he : e ∈ (publishPath c cfg rk msg env).1) :
    isPublishOp e = true := by
  unfold publishPath at he
  cases hq : cfg.rabbitmq.queue with
  | none =>
      rw [hq] at he
      split_ifs at he <;> (cases e <;> simp_all [isPublishOp])
  | some q =>
      rw [hq] at he
      split_ifs at he <;> (cases e <;> simp_all [isPublishOp])

theorem publishPath_ok (c : Nat) (cfg : BridgeConfig) (rk msg : String)
    (env : Env) (hok : ∀ s, env.stepFails s = false) :
    (publishPath c cfg rk msg env).2 = true ∧
      Event.basicPublish cfg.rabbitmq.exchange rk msg ∈
        (publishPath c cfg rk msg env).1 := by
  unfold publishPath
  simp [hok]

theorem republish_message_some (c : Nat) (cfg : BridgeConfig) (p : String)
    (env : Env) (f : Nat) :
    republish_message (some c) cfg p env f = republishBody c false cfg p env :=
  rfl

theorem republish_message_none_ok (cfg : BridgeConfig) (p : String) (env : Env)
    (f : Nat) (h : env.rmqConnectOk = true) :
    republish_message none cfg p env f =
      connectRmqOkEvents f ++ republishBody f true cfg p env := by
  simp [republish_message, h]

theorem countConnect_append (a b : List Event) :
    countConnect (a ++ b) = countConnect a + countConnect b := by
  simp [countConnect, List.countP_append]

theorem countClose_append (a b : List Event) :
    countClose (a ++ b) = countClose a + countClose b := by
  simp [countClose, List.countP_append]

theorem countPublish_append (a b : List Event) :
    countPublish (a ++ b) = countPublish a + countPublish b := by
  simp [countPublish, List.countP_append]

theorem countCritical_append (a b : List Event) :
    countCritical (a ++ b) = countCritical a + countCritical b := by
  simp [countCritical, List.countP_append]

theorem callExits_append (a b : List Event) :
    callExits (a ++ b) = (callExits a || callExits b) := by
  simp [callExits]

theorem channelsOn_append (c : Nat) (a b : List Event) :
    channelsOn c (a ++ b) = (channelsOn c a && channelsOn c b) := by
  simp [channelsOn]

theorem hasWarning_append (a b : List Event) :
    hasWarning (a ++ b) = (hasWarning a || hasWarning b) := by
  simp [hasWarning]

theorem infoContaining_append (a b : List Event) (s : String) :
    infoContaining (a ++ b) s = (infoContaining a s || infoContaining b s) := by
  simp [infoContaining]

theorem warningContaining_append (a b : List Event) (s : String) :
    warningContaining (a ++ b) s =
      (warningContaining a s || warningContaining b s) := by
  simp [warningContaining]

theorem publishPath_frame (c : Nat) (cfg : BridgeConfig) (rk msg : String)
    (env : Env) :
    countConnect (publishPath c cfg rk msg env).1 = 0 ∧
    countClose (publishPath c cfg rk msg env).1 = 0 ∧
    callExits (publishPath c cfg rk msg env).1 = false ∧
    channelsOn c (publishPath c cfg rk msg env).1 = true := by
  unfold publishPath
  cases hq : cfg.rabbitmq.queue <;> split_ifs <;>
    refine ⟨rfl, rfl, rfl, ?_⟩ <;> simp [channelsOn]

theorem publishPath_success_shape (c : Nat) (cfg : BridgeConfig)
    (rk msg : String) (env : Env) (h : (publishPath c cfg rk msg env).2 = true) :
    countPublish (publishPath c cfg rk msg env).1 = 1 := by
  unfold publishPath at h ⊢
  cases hq : cfg.rabbitmq.queue <;> rw [hq] at h <;> split_ifs at h ⊢ <;> rfl

theorem resultLogs_frame (c : Nat) (cfg : BridgeConfig) (rk msg p : String)
    (b : Bool) :
    countConnect (if b then successLogs cfg rk msg else failureLogs cfg p) = 0 ∧
    countClose (if b then successLogs cfg rk msg else failureLogs cfg p) = 0 ∧
    countPublish (if b then successLogs cfg rk msg else failureLogs cfg p) = 0 ∧
    callExits (if b then successLogs cfg rk msg else failureLogs cfg p) = false ∧
    channelsOn c (if b then successLogs cfg rk msg else failureLogs cfg p) = true := by
  cases b <;> exact ⟨rfl, rfl, rfl, rfl, rfl⟩

theorem malformed_frame (c : Nat) (p : String) :
    countConnect (malformedEvents p) = 0 ∧
    countClose (malformedEvents p) = 0 ∧
    countPublish (malformedEvents p) = 0 ∧
    callExits (malformedEvents p) = false ∧
    channelsOn c (malformedEvents p) = true := ⟨rfl, rfl, rfl, rfl, rfl⟩

theorem republish_persistent_frame (c : Nat) (cfg : BridgeConfig) (p : String)
    (env : Env) (f : Nat) :
    countConnect (republish_message (some c) cfg p env f) = 0 ∧
    countClose (republish_message (some c) cfg p env f) = 0 ∧
    callExits (republish_message (some c) cfg p env f) = false ∧
    channelsOn c (republish_message (some c) cfg p env f) = true := by
  rw [republish_message_some]
  cases hp : parseOk p with
  | none =>
      rw [republishBody_malformed _ _ _ _ _ hp]
      exact ⟨(malformed_frame c p).1, (malformed_frame c p).2.1,
        (malformed_frame c p).2.2.2.1, (malformed_frame c p).2.2.2.2⟩
  | some pr =>
      obtain ⟨rk, msg⟩ := pr
      rw [republishBody_parsed _ _ _ _ _ _ _ hp]
      rw [show (if (false : Bool) then [Event.brokerClose c] else ([] : List Event))
            = [] from rfl]
      rw [List.append_nil]
      have hf := publishPath_frame c cfg rk msg env
      have hl := resultLogs_frame c cfg rk msg p (publishPath c cfg rk msg env).2
      refine ⟨?_, ?_, ?_, ?_⟩
      · rw [countConnect_append, hf.1, hl.1]
      · rw [countClose_append, hf.2.1, hl.2.1]
      · rw [callExits_append, hf.2.2.1, hl.2.2.2.1]; rfl
      · rw [channelsOn_append, hf.2.2.2, hl.2.2.2.2]; rfl

theorem republish_ephemeral_parsed_counts (cfg : BridgeConfig) (p : String)
    (env : Env) (f : Nat) (hconn : env.rmqConnectOk = true)
    (hp : (parseOk p).isSome = true) :
    countConnect (republish_message none cfg p env f) = 1 ∧
    countClose (republish_message none cfg p env f) = 1 ∧
    callExits (republish_message none cfg p env f) = false := by
  obtain ⟨pr, hps⟩ := Option.isSome_iff_exists.mp hp
  obtain ⟨rk, msg⟩ := pr
  rw [republish_message_none_ok _ _ _ _ hconn, republishBody_parsed _ _ _ _ _ _ _ hps]
  rw [show (if (true : Bool) then [Event.brokerClose f] else ([] : List Event))
        = [Event.brokerClose f] from rfl]
  have hf := publishPath_frame f cfg rk msg env
  have hl := resultLogs_frame f cfg rk msg p (publishPath f cfg rk msg env).2
  refine ⟨?_, ?_, ?_⟩
  · simp only [countConnect_append]
    rw [hf.1, hl.1]
    rfl
  · simp only [countClose_append]
    rw [hf.2.1, hl.2.1]
    rfl
  · simp only [callExits_append]
    rw [hf.2.2.1, hl.2.2.2.1]
    rfl

theorem runSeq_cons (conn : Option Nat) (cfg : BridgeConfig) (env : Env)
    (f : Nat) (p : String) (rest : List String)
    (h : callExits (republish_message conn cfg p env f) = false) :
    runSeq conn cfg env f (p :: rest) =
      republish_message conn cfg p env f ++ runSeq conn cfg env (f + 1) rest := by
  simp [runSeq, h]

theorem drainLoopState_nil : drainLoopState [] = ([], []) := by
  unfold drainLoopState
  rfl

theorem drainLoopState_concat (xs : List String) (x : String) :
    drainLoopState (xs ++ [x]) =
      (x :: (drainLoopState xs).1, (drainLoopState xs).2) := by
  rw [drainLoopState]
  have hne : ¬xs ++ [x] = [] := by simp
  simp [hne, List.getLast_concat, List.dropLast_concat]

theorem drainLoopState_eq (buf : List String) :
    drainLoopState buf = (buf.reverse, []) := by
  induction buf using List.reverseRecOn with
  | nil => exact drainLoopState_nil
  | append_singleton xs x ih =>
      rw [drainLoopState_concat, ih]
      simp

theorem runSeq_ephemeral_balance (cfg : BridgeConfig) (env : Env)
    (hconn : env.rmqConnectOk = true) :
    ∀ payloads : List String, ∀ fresh : Nat,
      (∀ p ∈ payloads, (parseOk p).isSome = true) →
      countConnect (runSeq none cfg env fresh payloads) =
        countClose (runSeq none cfg env fresh payloads) := by
  intro payloads
  induction payloads with
  | nil => intro fresh _; rfl
  | cons p rest ih =>
      intro fresh hall
      have hp := hall p (List.mem_cons_self p rest)
      have hc := republish_ephemeral_parsed_counts cfg p env fresh hconn hp
      rw [runSeq_cons _ _ _ _ _ _ hc.2.2, countConnect_append, countClose_append,
        hc.1, hc.2.1, ih (fresh + 1) (fun q hq => hall q (List.mem_cons_of_mem _ hq))]

/-! ### Claims -/

/-- C1: for every raw notification of the form `k ++ ":" ++ m` with
non-empty `k` (itself colon-free, as the claim's "form" requires) and
non-empty `m`, the parser of `republish_message` splits on the first
colon yielding exactly `(k, m)` — the body keeping any further colons
verbatim since `m` is arbitrary — and when the publish path raises
nowhere, the resulting `basic_publish` uses routing key `k` and body
`m`. -/
theorem C1_first_colon_split_and_publish (k m : String) (cfg : BridgeConfig)
    (env : Env) (c fresh : Nat) (hk : k ≠ "") (hm : m ≠ "")
    (hcol : ':' ∉ k.data) (hok : ∀ s, env.stepFails s = false) :
    splitFirst (k ++ ":" ++ m) = some (k, m) ∧
    Event.basicPublish cfg.rabbitmq.exchange k m ∈
      republish_message (some c) cfg (k ++ ":" ++ m) env fresh := by
  have hp := parseOk_concat k m hk hm hcol
  have hb := republishBody_parsed c false cfg (k ++ ":" ++ m) k m env hp
  have hpp := publishPath_ok c cfg k m env hok
  refine ⟨splitFirst_concat k m hcol, ?_⟩
  rw [republish_message_some, hb, hpp.1]
  simp [hpp.2]

/-- Witness for C1 at the spec's own example `"orders:item:42"`. -/
theorem C1_first_colon_split_and_publish_witness :
    splitFirst ("orders" ++ ":" ++ "item:42") = some ("orders", "item:42") ∧
    Event.basicPublish cfgA.rabbitmq.exchange "orders" "item:42" ∈
      republish_message (some 0) cfgA ("orders" ++ ":" ++ "item:42") envAllOk 0 :=
  C1_first_colon_split_and_publish "orders" "item:42" cfgA envAllOk 0 0
    (by decide) (by decide) (by decide) (fun _ => rfl)

/-- C2: a payload with no colon, or whose key or body side is empty,
fails the parse; `republish_message` logs a warning and the trace
contains no channel open, no exchange or queue declaration and no
`basic_publish` — provided it gets past the connection step (always, in
persistent mode; in ephemeral mode when the broker accepts, since the
ephemeral connect precedes the parse). -/
theorem C2_invalid_payload_discarded (conn : Option Nat) (cfg : BridgeConfig)
    (p : String) (env : Env) (fresh : Nat) (hbad : parseOk p = none)
    (hconn : conn = none → env.rmqConnectOk = true) :
    hasWarning (republish_message conn cfg p env fresh) = true ∧
    noPublishOps (republish_message conn cfg p env fresh) = true := by
  cases conn with
  | none =>
      rw [republish_message_none_ok _ _ _ _ (hconn rfl),
        republishBody_malformed _ _ _ _ _ hbad]
      exact ⟨rfl, rfl⟩
  | some c =>
      rw [republish_message_some, republishBody_malformed _ _ _ _ _ hbad]
      exact ⟨rfl, rfl⟩

/-- Witness for C2 at the payload `":payload"` (an empty routing key);
the other two spec examples are checked alongside. -/
theorem C2_invalid_payload_discarded_witness :
    (parseOk ":payload" = none ∧ parseOk "key:" = none ∧
      parseOk "noseparator" = none) ∧
    hasWarning (republish_message (some 0) cfgA ":payload" envAllOk 0) = true ∧
    noPublishOps (republish_message (some 0) cfgA ":payload" envAllOk 0) = true :=
  ⟨⟨rfl, rfl, rfl⟩,
    C2_invalid_payload_discarded (some 0) cfgA ":payload" envAllOk 0 rfl
      (fun h => Option.noConfusion h)⟩

/-- C3 counterexample: in ephemeral mode with the broker accepting, the
malformed payload `"noseparator"` makes `republish_message` open a fresh
connection (connect happens before the parse) and return through the
early malformed-payload `return`, which skips `conn.close()`: one
connection opened, none closed — so the connection is not closed before
the function returns and a sequence containing this notification leaks
it. -/
theorem C3_malformed_payload_leaks_connection :
    countConnect (republish_message none cfgA "noseparator" envAllOk 7) = 1 ∧
    countClose (republish_message none cfgA "noseparator" envAllOk 7) = 0 :=
  ⟨rfl, rfl⟩

/-- C3 (amended): in ephemeral mode with the broker accepting, for every
notification whose payload parses (non-empty key and body), a fresh
connection is opened for that message and closed before the call
returns, whether the publish succeeds or fails; hence across any
sequence of such notifications openings and closings balance — no
leak. (Malformed payloads are excluded: there the early return leaks
the connection, see the counterexample.) -/
theorem C3_ephemeral_connection_closed_per_message (cfg : BridgeConfig)
    (env : Env) (payloads : List String) (fresh : Nat)
    (hconn : env.rmqConnectOk = true)
    (hall : ∀ p ∈ payloads, (parseOk p).isSome = true) :
    (∀ p f, (parseOk p).isSome = true →
      countConnect (republish_message none cfg p env f) = 1 ∧
      countClose (republish_message none cfg p env f) = 1) ∧
    countConnect (runSeq none cfg env fresh payloads) =
      countClose (runSeq none cfg env fresh payloads) :=
  ⟨fun p f hp =>
    ⟨(republish_ephemeral_parsed_counts cfg p env f hconn hp).1,
     (republish_ephemeral_parsed_counts cfg p env f hconn hp).2.1⟩,
   runSeq_ephemeral_balance cfg env hconn payloads fresh hall⟩

/-- Witness for the amended C3: two well-formed messages in ephemeral
mode, one with a failing publish path, balance connects and closes. -/
theorem C3_ephemeral_connection_closed_per_message_witness :
    countConnect (runSeq none cfgA envPubFail 0 ["a:1", "b:2"]) =
      countClose (runSeq none cfgA envPubFail 0 ["a:1", "b:2"]) :=
  (C3_ephemeral_connection_closed_per_message cfgA envPubFail ["a:1", "b:2"] 0
    rfl (by decide)).2

theorem run_persistent_ok (cfg : BridgeConfig) (env : Env)
    (hr : env.rmqConnectOk = true) (hpg : env.pgConnectOk = true)
    (hli : env.listenOk = true) :
    run true cfg env =
      .polling ([Event.log .info ("Initiating bridge \"" ++ cfg.name ++ "\".")]
        ++ connectRmqOkEvents 0 ++ connectPgOkEvents ++ listenOkEvents cfg
        ++ [Event.log .info "Beginning polling for messages."]) (some 0) := by
  unfold run
  simp [hr, hpg, hli]

theorem republish_persistent_success (c : Nat) (cfg : BridgeConfig)
    (p : String) (env : Env) (f : Nat) (hok : ∀ s, env.stepFails s = false)
    (hp : (parseOk p).isSome = true) :
    countPublish (republish_message (some c) cfg p env f) = 1 := by
  obtain ⟨pr, hps⟩ := Option.isSome_iff_exists.mp hp
  obtain ⟨rk, msg⟩ := pr
  rw [republish_message_some, republishBody_parsed _ _ _ _ _ _ _ hps]
  rw [show (if (false : Bool) then [Event.brokerClose c] else ([] : List Event))
        = [] from rfl, List.append_nil]
  have hs := (publishPath_ok c cfg rk msg env hok).1
  have h1 := publishPath_success_shape c cfg rk msg env hs
  have hl := resultLogs_frame c cfg rk msg p (publishPath c cfg rk msg env).2
  rw [countPublish_append, h1, hl.2.2.1]

/-- C4: in persistent mode with all startup steps succeeding, `run`
opens exactly one broker connection (handle `0`) before polling begins
and hands exactly that handle to `poll`; `republish_message` on a
persistent handle never closes it and never opens another (whatever the
payload or environment); and a drain of two well-formed notifications
publishes twice over channels of that same connection with no connect
and no close — the handle is reused unchanged. -/
theorem C4_persistent_single_connection_reused (cfg : BridgeConfig)
    (env : Env) (p1 p2 : String) (fresh : Nat)
    (hr : env.rmqConnectOk = true) (hpg : env.pgConnectOk = true)
    (hli : env.listenOk = true) (hok : ∀ s, env.stepFails s = false)
    (h1 : (parseOk p1).isSome = true) (h2 : (parseOk p2).isSome = true) :
    pollingConn (run true cfg env) = some (some 0) ∧
    countConnect (outcomeEvents (run true cfg env)) = 1 ∧
    (∀ p e f, countClose (republish_message (some 0) cfg p e f) = 0 ∧
      countConnect (republish_message (some 0) cfg p e f) = 0) ∧
    countPublish (pollStep [] (some 0) cfg env fresh (.activity [p1, p2])).2 = 2 ∧
    countConnect (pollStep [] (some 0) cfg env fresh (.activity [p1, p2])).2 = 0 ∧
    countClose (pollStep [] (some 0) cfg env fresh (.activity [p1, p2])).2 = 0 ∧
    channelsOn 0 (pollStep [] (some 0) cfg env fresh (.activity [p1, p2])).2
      = true := by
  have hps : (pollStep [] (some 0) cfg env fresh (.activity [p1, p2])).2 =
      runSeq (some 0) cfg env fresh [p2, p1] := by
    simp [pollStep, drainLoopState_eq]
  have rs : runSeq (some 0) cfg env fresh [p2, p1] =
      republish_message (some 0) cfg p2 env fresh ++
        republish_message (some 0) cfg p1 env (fresh + 1) := by
    rw [runSeq_cons _ _ _ _ _ _
        (republish_persistent_frame 0 cfg p2 env fresh).2.2.1,
      runSeq_cons _ _ _ _ _ _
        (republish_persistent_frame 0 cfg p1 env (fresh + 1)).2.2.1]
    simp [runSeq]
  have f2 := republish_persistent_frame 0 cfg p2 env fresh
  have f1 := republish_persistent_frame 0 cfg p1 env (fresh + 1)
  refine ⟨?_, ?_, ?_, ?_, ?_, ?_, ?_⟩
  · rw [run_persistent_ok cfg env hr hpg hli]
    rfl
  · rw [run_persistent_ok cfg env hr hpg hli]
    rfl
  · exact fun p e f => ⟨(republish_persistent_frame 0 cfg p e f).2.1,
      (republish_persistent_frame 0 cfg p e f).1⟩
  · rw [hps, rs, countPublish_append,
      republish_persistent_success 0 cfg p2 env fresh hok h2,
      republish_persistent_success 0 cfg p1 env (fresh + 1) hok h1]
  · rw [hps, rs, countConnect_append, f2.1, f1.1]
  · rw [hps, rs, countClose_append, f2.2.1, f1.2.1]
  · rw [hps, rs, channelsOn_append, f2.2.2.2, f1.2.2.2]
    rfl

/-- Witness for C4 at two concrete well-formed messages. -/
theorem C4_persistent_single_connection_reused_witness :
    pollingConn (run true cfgA envAllOk) = some (some 0) ∧
    countConnect (outcomeEvents (run true cfgA envAllOk)) = 1 ∧
    (∀ p e f, countClose (republish_message (some 0) cfgA p e f) = 0 ∧
      countConnect (republish_message (some 0) cfgA p e f) = 0) ∧
    countPublish (pollStep [] (some 0) cfgA envAllOk 0
      (.activity ["a:1", "b:2"])).2 = 2 ∧
    countConnect (pollStep [] (some 0) cfgA envAllOk 0
      (.activity ["a:1", "b:2"])).2 = 0 ∧
    countClose (pollStep [] (some 0) cfgA envAllOk 0
      (.activity ["a:1", "b:2"])).2 = 0 ∧
    channelsOn 0 (pollStep [] (some 0) cfgA envAllOk 0
      (.activity ["a:1", "b:2"])).2 = true :=
  C4_persistent_single_connection_reused cfgA envAllOk "a:1" "b:2" 0
    rfl rfl rfl (fun _ => rfl) rfl rfl

theorem strContains_middle (a b c : String) :
    strContains (a ++ b ++ c) b = true := by
  unfold strContains strContainsAux
  rw [List.any_eq_true]
  refine ⟨a.data.length, ?_, ?_⟩
  · rw [List.mem_range]
    simp only [String.data_append, List.length_append]
    omega
  · have hd : (a ++ b ++ c).data.drop a.data.length = b.data ++ c.data := by
      simp only [String.data_append, List.append_assoc]
      exact List.drop_left _ _
    rw [hd, List.isPrefixOf_iff_prefix]
    exact List.prefix_append _ _

theorem strContains_suffix (a b : String) : strContains (a ++ b) b = true := by
  unfold strContains strContainsAux
  rw [List.any_eq_true]
  refine ⟨a.data.length, ?_, ?_⟩
  · rw [List.mem_range]
    simp only [String.data_append, List.length_append]
    omega
  · rw [String.data_append, List.drop_left, List.isPrefixOf_iff_prefix]

theorem publishPath_no_logs (c : Nat) (cfg : BridgeConfig) (rk msg : String)
    (env : Env) (s : String) :
    hasWarning (publishPath c cfg rk msg env).1 = false ∧
    warningContaining (publishPath c cfg rk msg env).1 s = false ∧
    infoContaining (publishPath c cfg rk msg env).1 s = false := by
  unfold publishPath
  cases hq : cfg.rabbitmq.queue <;> split_ifs <;> exact ⟨rfl, rfl, rfl⟩

theorem failureLogs_content (cfg : BridgeConfig) (p : String) :
    hasWarning (failureLogs cfg p) = true ∧
    warningContaining (failureLogs cfg p) cfg.name = true ∧
    infoContaining (failureLogs cfg p) p = true := by
  refine ⟨rfl, ?_, ?_⟩
  · simp [warningContaining, failureLogs, strContains_middle]
  · simp [infoContaining, failureLogs, strContains_suffix]

theorem connectRmqOk_no_logs (f : Nat) (s : String) :
    hasWarning (connectRmqOkEvents f) = false ∧
    warningContaining (connectRmqOkEvents f) s = false :=
  ⟨rfl, rfl⟩

/-- C5 counterexample: with a failing `basic_publish` on the well-formed
payload `"xyz:abc"`, `republish_message` takes the failure branch (a
warning is logged and no exit happens), but the warning-level record
does not contain the payload — the payload appears only in a separate
info-level record, so "logs a warning including the original payload"
is false as stated. -/
theorem C5_warning_does_not_include_payload :
    hasWarning (republish_message (some 0) cfgA "xyz:abc" envPubFail 0) = true ∧
    warningContaining (republish_message (some 0) cfgA "xyz:abc" envPubFail 0)
      "xyz:abc" = false ∧
    infoContaining (republish_message (some 0) cfgA "xyz:abc" envPubFail 0)
      "xyz:abc" = true ∧
    callExits (republish_message (some 0) cfgA "xyz:abc" envPubFail 0) = false :=
  ⟨rfl, rfl, rfl, rfl⟩

/-- C5 (amended): when the publish path of a well-formed notification
raises, `republish_message` logs a warning naming the bridge and logs
the original payload in a separate info-level record, and returns
normally (no `sys.exit`, nothing propagates), so the drain sequence
continues with the remaining notifications unchanged — a publish
failure never stops the bridge. (In ephemeral mode this holds whenever
the broker accepted the connection, which precedes the publish
path.) -/
theorem C5_publish_failure_swallowed (conn : Option Nat) (cfg : BridgeConfig)
    (p rk msg : String) (env : Env) (fresh : Nat) (rest : List String)
    (hp : parseOk p = some (rk, msg))
    (hfail : ∀ c, (publishPath c cfg rk msg env).2 = false)
    (hconn : conn = none → env.rmqConnectOk = true) :
    hasWarning (republish_message conn cfg p env fresh) = true ∧
    warningContaining (republish_message conn cfg p env fresh) cfg.name = true ∧
    infoContaining (republish_message conn cfg p env fresh) p = true ∧
    callExits (republish_message conn cfg p env fresh) = false ∧
    runSeq conn cfg env fresh (p :: rest) =
      republish_message conn cfg p env fresh ++
        runSeq conn cfg env (fresh + 1) rest := by
  cases conn with
  | some c =>
      have ht : republish_message (some c) cfg p env fresh =
          (publishPath c cfg rk msg env).1 ++ failureLogs cfg p := by
        rw [republish_message_some, republishBody_parsed _ _ _ _ _ _ _ hp, hfail c]
        simp
      have hnx : callExits (republish_message (some c) cfg p env fresh) = false :=
        (republish_persistent_frame c cfg p env fresh).2.2.1
      refine ⟨?_, ?_, ?_, hnx, runSeq_cons _ _ _ _ _ _ hnx⟩
      · rw [ht, hasWarning_append, (publishPath_no_logs c cfg rk msg env p).1,
          (failureLogs_content cfg p).1]
        rfl
      · rw [ht, warningContaining_append,
          (publishPath_no_logs c cfg rk msg env cfg.name).2.1,
          (failureLogs_content cfg p).2.1]
        rfl
      · rw [ht, infoContaining_append,
          (publishPath_no_logs c cfg rk msg env p).2.2,
          (failureLogs_content cfg p).2.2]
        rfl
  | none =>
      have hc := hconn rfl
      have ht : republish_message none cfg p env fresh =
          connectRmqOkEvents fresh ++
            ((publishPath fresh cfg rk msg env).1 ++ failureLogs cfg p
              ++ [Event.brokerClose fresh]) := by
        rw [republish_message_none_ok _ _ _ _ hc,
          republishBody_parsed _ _ _ _ _ _ _ hp, hfail fresh]
        simp
      have hnx : callExits (republish_message none cfg p env fresh) = false := by
        rw [ht, callExits_append, callExits_append, callExits_append,
          (connectRmqOk_no_logs fresh p).1.symm]
        rw [(publishPath_frame fresh cfg rk msg env).2.2.1]
        rfl
      refine ⟨?_, ?_, ?_, hnx, runSeq_cons _ _ _ _ _ _ hnx⟩
      · rw [ht, hasWarning_append, hasWarning_append, hasWarning_append,
          (publishPath_no_logs fresh cfg rk msg env p).1,
          (failureLogs_content cfg p).1]
        rfl
      · rw [ht, warningContaining_append, warningContaining_append,
          warningContaining_append, (connectRmqOk_no_logs fresh cfg.name).2,
          (publishPath_no_logs fresh cfg rk msg env cfg.name).2.1,
          (failureLogs_content cfg p).2.1]
        rfl
      · rw [ht, infoContaining_append, infoContaining_append,
          infoContaining_append,
          (publishPath_no_logs fresh cfg rk msg env p).2.2,
          (failureLogs_content cfg p).2.2]
        simp

/-- Witness for the amended C5: a failing publish on `"k:v"` followed by
another message in the drain sequence. -/
theorem C5_publish_failure_swallowed_witness :
    hasWarning (republish_message (some 0) cfgA "k:v" envPubFail 0) = true ∧
    warningContaining (republish_message (some 0) cfgA "k:v" envPubFail 0)
      cfgA.name = true ∧
    infoContaining (republish_message (some 0) cfgA "k:v" envPubFail 0)
      "k:v" = true ∧
    callExits (republish_message (some 0) cfgA "k:v" envPubFail 0) = false ∧
    runSeq (some 0) cfgA envPubFail 0 ["k:v", "x:y"] =
      republish_message (some 0) cfgA "k:v" envPubFail 0 ++
        runSeq (some 0) cfgA envPubFail 1 ["x:y"] :=
  C5_publish_failure_swallowed (some 0) cfgA "k:v" "k" "v" envPubFail 0 ["x:y"]
    rfl (fun _ => rfl) (fun h => Option.noConfusion h)

/-- C6: draining invokes the callback exactly once per buffered
notification (counts preserved), leaves the buffer empty, and hands the
payloads over in most-recent-first order — the reverse of arrival order,
because the loop `pop()`s from the end of `notifies`; `pollStep` on
activity republishes exactly that reversed sequence. -/
theorem C6_drain_callback_once_lifo (notifies delivered : List String)
    (conn : Option Nat) (cfg : BridgeConfig) (env : Env) (fresh : Nat) :
    (drainLoopState (notifies ++ delivered)).1 =
      (notifies ++ delivered).reverse ∧
    (drainLoopState (notifies ++ delivered)).2 = [] ∧
    (∀ p, ((drainLoopState (notifies ++ delivered)).1).count p =
      (notifies ++ delivered).count p) ∧
    pollStep notifies conn cfg env fresh (.activity delivered) =
      ([], runSeq conn cfg env fresh ((notifies ++ delivered).reverse)) := by
  refine ⟨?_, ?_, ?_, ?_⟩
  · rw [drainLoopState_eq]
  · rw [drainLoopState_eq]
  · intro p
    rw [drainLoopState_eq]
    exact List.count_reverse _ _
  · simp [pollStep, drainLoopState_eq]

theorem loadAll_ok_iff (files : List ConfigFile) :
    exceptOkL (loadAll files) = true ↔
      ∀ c ∈ files, exceptOk (parse_config c) = true := by
  induction files with
  | nil => simp [loadAll, exceptOkL]
  | cons cf rest ih =>
      simp only [loadAll]
      cases hp : parse_config cf with
      | error p =>
          constructor
          · intro h
            exact absurd h (by simp [exceptOkL])
          · intro hall
            have h1 := hall cf (List.mem_cons_self cf rest)
            rw [hp] at h1
            exact absurd h1 (by simp [exceptOk])
      | ok d =>
          cases hl : loadAll rest with
          | error q =>
              constructor
              · intro h
                exact absurd h (by simp [exceptOkL])
              · intro hall
                have h2 : ∀ c ∈ rest, exceptOk (parse_config c) = true :=
                  fun c hc => hall c (List.mem_cons_of_mem _ hc)
                have h3 := ih.mpr h2
                rw [hl] at h3
                exact absurd h3 (by simp [exceptOkL])
          | ok ds =>
              constructor
              · intro _ c hc
                rcases List.mem_cons.mp hc with h | h
                · rw [h, hp]; rfl
                · exact ih.mp (by rw [hl]; rfl) c h
              · intro _; rfl

/-- C7 counterexample: a config file carrying every required key but an
empty value for `bridge.name` sails through `parse_config` — the code
checks `has_option` (presence) only and never looks at values, so a
present-but-empty required key does not abort the process as the claim
requires. -/
theorem C7_present_but_empty_value_accepted :
    parse_config cfgFileEmptyName = .ok cfgFileEmptyName ∧
    configGet cfgFileEmptyName "bridge" "name" = some "" ∧
    ("bridge", "name") ∈ requiredChecks := by
  exact ⟨rfl, rfl, by decide⟩

/-- C7 (amended): configuration parsing succeeds exactly when every
required (section, option) pair is present — values, even empty ones,
are never inspected; when it fails, the reported pair (logged critically
before `sys.exit(1)`) is a required pair that is absent; the optional
`rabbitmq.queue` key is not among the required checks; and the
config-loading phase of `__main__` (which precedes every bridge start)
succeeds exactly when every file parses. -/
theorem C7_missing_required_key_is_fatal (cf : ConfigFile)
    (files : List ConfigFile) :
    (exceptOk (parse_config cf) = true ↔
      ∀ p ∈ requiredChecks, has_option cf p.1 p.2 = true) ∧
    (∀ p, parse_config cf = .error p →
      p ∈ requiredChecks ∧ has_option cf p.1 p.2 = false) ∧
    ("rabbitmq", "queue") ∉ requiredChecks ∧
    (exceptOkL (loadAll files) = true ↔
      ∀ c ∈ files, exceptOk (parse_config c) = true) := by
  refine ⟨?_, ?_, by decide, loadAll_ok_iff files⟩
  · unfold parse_config
    cases hf : requiredChecks.find? (fun p => !has_option cf p.1 p.2) with
    | none =>
        simp only [exceptOk]
        constructor
        · intro _ p hp
          have h1 := List.find?_eq_none.mp hf p hp
          simpa using h1
        · intro _; trivial
    | some q =>
        simp only [exceptOk]
        constructor
        · intro h
          exact absurd h (by simp)
        · intro hall
          have hq1 := List.find?_some hf
          have hq2 := List.mem_of_find?_eq_some hf
          have hq3 := hall q hq2
          rw [hq3] at hq1
          exact absurd hq1 (by simp)
  · unfold parse_config
    cases hf : requiredChecks.find? (fun p => !has_option cf p.1 p.2) with
    | none =>
        intro p h
        exact Except.noConfusion h
    | some q =>
        intro p h
        have hqp : q = p := by
          injection h
        subst hqp
        have hq1 := List.find?_some hf
        refine ⟨List.mem_of_find?_eq_some hf, ?_⟩
        simpa using hq1

/-- Witness for the amended C7: the empty config file fails the
presence checks (so the process would exit before any bridge starts). -/
theorem C7_missing_required_key_is_fatal_witness :
    exceptOk (parse_config cfgFileEmptyName) = true :=
  (C7_missing_required_key_is_fatal cfgFileEmptyName []).1.mpr (by decide)

/-- C8: the supervisor runs each bridge in its own process, so the list
of outcomes is exactly the list of per-bridge `run` results computed
from each bridge's own configuration and environment alone; when the
first bridge's database is unreachable it dies via `sys.exit(1)` after
critical logs, while a sibling whose connections all succeed reaches
the polling loop regardless. -/
theorem C8_sibling_bridge_unaffected (persistent : Bool)
    (c1 c2 : BridgeConfig) (e1 e2 : Env) (h1 : e1.pgConnectOk = false)
    (h2r : e2.rmqConnectOk = true) (h2p : e2.pgConnectOk = true)
    (h2l : e2.listenOk = true) :
    supervise persistent [(c1, e1), (c2, e2)] =
      [run persistent c1 e1, run persistent c2 e2] ∧
    exitedCritically (run persistent c1 e1) = true ∧
    reachedPolling (run persistent c2 e2) = true := by
  refine ⟨rfl, ?_, ?_⟩
  · cases persistent with
    | false =>
        unfold run
        simp [h1]
        rfl
    | true =>
        by_cases hr1 : e1.rmqConnectOk = true
        · unfold run
          simp [h1, hr1]
          rfl
        · unfold run
          simp [h1, hr1]
          rfl
  · unfold run
    simp [h2r, h2p, h2l]
    rfl

/-- Witness for C8: the first bridge has an unreachable database, the
second (differently configured) bridge polls normally. -/
theorem C8_sibling_bridge_unaffected_witness :
    supervise false [(cfgA, envPgDown), (cfgB, envAllOk)] =
      [run false cfgA envPgDown, run false cfgB envAllOk] ∧
    exitedCritically (run false cfgA envPgDown) = true ∧
    reachedPolling (run false cfgB envAllOk) = true :=
  C8_sibling_bridge_unaffected false cfgA cfgB envPgDown envAllOk
    rfl rfl rfl rfl

/-- C9: when the `LISTEN` command raises, the bridge's execution unit
dies (the exception propagates uncaught out of `run`) and polling never
begins — but no critical message is logged, because the `except:` block
of `register_listen` runs `raise` before its `logging.critical` and
`sys.exit(1)` lines, leaving them unreachable. The claim's "exits after
logging a critical message" is the intent of that dead code; the code
as written re-raises first. -/
theorem C9_listen_failure_raises_without_critical_log (persistent : Bool)
    (cfg : BridgeConfig) (env : Env) (hli : env.listenOk = false)
    (hpg : env.pgConnectOk = true)
    (hr : persistent = true → env.rmqConnectOk = true) :
    isRaised (run persistent cfg env) = true ∧
    reachedPolling (run persistent cfg env) = false ∧
    countCritical (outcomeEvents (run persistent cfg env)) = 0 := by
  cases persistent with
  | false =>
      unfold run
      simp [hli, hpg]
      exact ⟨rfl, rfl, rfl⟩
  | true =>
      have hr1 := hr rfl
      unfold run
      simp [hli, hpg, hr1]
      exact ⟨rfl, rfl, rfl⟩

/-- Witness for C9 at a concrete bridge whose `LISTEN` raises. -/
theorem C9_listen_failure_raises_without_critical_log_witness :
    isRaised (run false cfgA envListenFail) = true ∧
    reachedPolling (run false cfgA envListenFail) = false ∧
    countCritical (outcomeEvents (run false cfgA envListenFail)) = 0 :=
  C9_listen_failure_raises_without_critical_log false cfgA envListenFail
    rfl rfl (fun h => Bool.noConfusion h)

/-- C10: a 2-second `select` timeout with no activity leaves the notify
buffer exactly as it was, emits only the single debug-level log, and
performs no publish, no warning, no critical log and no exit — the loop
goes straight back to waiting. -/
theorem C10_idle_timeout_is_silent (notifies : List String)
    (conn : Option Nat) (cfg : BridgeConfig) (env : Env) (fresh : Nat) :
    pollStep notifies conn cfg env fresh .timeout =
      (notifies,
        [Event.log .debug "Timed out while polling. (this is normal)"]) ∧
    countPublish (pollStep notifies conn cfg env fresh .timeout).2 = 0 ∧
    hasWarning (pollStep notifies conn cfg env fresh .timeout).2 = false ∧
    countCritical (pollStep notifies conn cfg env fresh .timeout).2 = 0 ∧
    callExits (pollStep notifies conn cfg env fresh .timeout).2 = false :=
  ⟨rfl, rfl, rfl, rfl, rfl⟩

end Moreau
